import Mathlib

/-!
Shallow embedding of `fileConvertor.py`: a Flask service that converts CAD
files via FreeCAD, optionally uploads the result to S3, and tracks a job
record in MongoDB.  External collaborators (FreeCAD kernel, boto3, pymongo)
are modelled as oracles whose outcomes are fields of an environment record;
the control flow of the Python source is translated faithfully, including
its exception handling (`Except` for raised exceptions, `Option (Option α)`
for a Python local that may be unbound).
-/

namespace FileConvertor

/-! Path helpers: POSIX `os.path.basename` and `os.path.splitext`. -/

/-- Index of the last occurrence of `c` in `l`, if any. -/
def lastIndexOf (l : List Char) (c : Char) : Option Nat :=
  match l.reverse.findIdx? (fun a => a == c) with
  | none => none
  | some i => some (l.length - 1 - i)

/-- Characters of the last path component, as in `os.path.basename`. -/
def basenameChars (l : List Char) : List Char :=
  (l.reverse.takeWhile (fun a => a != '/')).reverse

/-- Embedding of `os.path.basename`: the part of the path after the last slash. -/
def basename (p : String) : String :=
  ⟨basenameChars p.data⟩

/-- Embedding of POSIX `os.path.splitext` over character lists: split off the
extension at the last dot of the last path component, treating leading dots of
that component as part of the root. -/
def splitextChars (l : List Char) : List Char × List Char :=
  let sepIdx : Nat := match lastIndexOf l '/' with
    | none => 0
    | some i => i + 1
  match lastIndexOf l '.' with
  | none => (l, [])
  | some dotIdx =>
    if sepIdx ≤ dotIdx then
      if ((l.drop sepIdx).take (dotIdx - sepIdx)).any (fun a => a != '.') then
        (l.take dotIdx, l.drop dotIdx)
      else (l, [])
    else (l, [])

/-- Embedding of `os.path.splitext` on strings. -/
def splitext (p : String) : String × String :=
  let r := splitextChars p.data
  (⟨r.1⟩, ⟨r.2⟩)

/-- Embedding of Python's `str.lower` (ASCII case folding, which covers every
format token and extension this program compares against). -/
def pyLower (s : String) : String :=
  ⟨s.data.map Char.toLower⟩

/-- Embedding of `generate_output_file`: base name of the input file (without
extension) followed by a dot and the lowercased output format. -/
def generate_output_file (input_file output_format : String) : String :=
  (splitext (basename input_file)).1 ++ "." ++ pyLower output_format

example : basename "a/b/part.step" = "part.step" := by decide
example : splitext "part.step" = ("part", ".step") := by decide
example : splitext ".bashrc" = (".bashrc", "") := by decide
example : splitext "dir.d/file" = ("dir.d/file", "") := by decide
example : generate_output_file "part.step" "STL" = "part.stl" := by decide
example : generate_output_file "/tmp/part.step" "stl" = "part.stl" := by decide

/-! Format dispatch (the `if output_format.lower() in (...)` chain of
`convert_step`) and input classification (the extension test on line 101). -/

/-- The seven export operations of `convert_step`. -/
inductive ExportOp where
  | step
  | iges
  | stl
  | obj
  | ply
  | brep
  | off
deriving DecidableEq, Repr

/-- All output-format tokens (already lowercased) accepted by the export
dispatch chain of `convert_step`. -/
def supportedFormats : List String :=
  ["stp", "step", "iges", "igs", "stl", "obj", "ply", "brep", "brp", "off"]

/-- The output-format dispatch chain of `convert_step` (lines 118-137) over
the already-lowercased token: each branch compares with a tuple of tokens; the
final `else` raises `ValueError`, modelled as `none`. -/
def dispatchCore (l : String) : Option ExportOp :=
  if l = "stp" ∨ l = "step" then some ExportOp.step
  else if l = "iges" ∨ l = "igs" then some ExportOp.iges
  else if l = "stl" then some ExportOp.stl
  else if l = "obj" then some ExportOp.obj
  else if l = "ply" then some ExportOp.ply
  else if l = "brep" ∨ l = "brp" then some ExportOp.brep
  else if l = "off" then some ExportOp.off
  else none

/-- Embedding of the output-format dispatch of `convert_step`: every branch
guard lowercases `output_format` before comparing. -/
def dispatch (fmt : String) : Option ExportOp :=
  dispatchCore (pyLower fmt)

/-- The two load branches of `convert_step`. -/
inductive LoadBranch where
  | mesh
  | native
deriving DecidableEq, Repr

/-- The four extensions loaded as meshes (line 101 of the source). -/
def meshExtensions : List String :=
  [".obj", ".stl", ".ply", ".off"]

/-- Embedding of `os.path.splitext(input_file)[1].lower()` (line 98). -/
def input_extension (input_file : String) : String :=
  pyLower (splitext input_file).2

/-- The input classification of `convert_step` (line 101) over the
already-lowercased extension: mesh extensions take the mesh branch, every
other extension the native branch. -/
def classifyCore (ext : String) : LoadBranch :=
  if ext = ".obj" ∨ ext = ".stl" ∨ ext = ".ply" ∨ ext = ".off" then
    LoadBranch.mesh
  else
    LoadBranch.native

/-- Embedding of the input classification of `convert_step` (lines 98-114). -/
def classify_input (input_file : String) : LoadBranch :=
  classifyCore (input_extension input_file)

example : classify_input "a/part.STL" = LoadBranch.mesh := by decide
example : classify_input "part.step" = LoadBranch.native := by decide
example : dispatch "STL" = some ExportOp.stl := by decide
example : dispatch "gltf" = none := by decide

/-! Mesh model and the custom `.off` exporter (`export_off`, lines 150-172).
The FreeCAD mesh is external; its embedding records the vertex list (each
vertex with three coordinates, kept as their printed decimal forms via `Int`)
and the facet list (each facet holding its zero-based vertex indices, the
`Points` sequence the exporter iterates over). -/

/-- A mesh vertex: three coordinates.  The source prints them with Python's
default float formatting; the embedding keeps integers so printing is exact. -/
structure MeshPoint where
  x : Int
  y : Int
  z : Int
deriving DecidableEq, Repr

/-- A mesh facet: the zero-based indices of its vertices (`facet.Points`). -/
structure MeshFacet where
  points : List Nat
deriving DecidableEq, Repr

/-- A FreeCAD mesh as `export_off` consumes it: `mesh.Points` and
`mesh.Facets`. -/
structure MeshData where
  points : List MeshPoint
  facets : List MeshFacet
deriving DecidableEq, Repr

/-- The vertex line `f"{point.x} {point.y} {point.z}"` of `export_off`. -/
def vertexLine (p : MeshPoint) : String :=
  toString p.x ++ " " ++ toString p.y ++ " " ++ toString p.z

/-- The face line of `export_off`: the facet's vertex count followed by its
vertex indices, all space-separated. -/
def faceLine (f : MeshFacet) : String :=
  toString f.points.length ++ " " ++ String.intercalate " " (f.points.map toString)

/-- The lines `export_off` writes when the file write succeeds: the `OFF`
header, the counts line with the zero edge placeholder, one line per vertex,
one line per facet. -/
def export_off_lines (m : MeshData) : List String :=
  ["OFF", toString m.points.length ++ " " ++ toString m.facets.length ++ " 0"]
    ++ m.points.map vertexLine ++ m.facets.map faceLine

/-- Exceptions of the embedded program. -/
inductive PyErr where
  | fileNotFound
  | kernelError
  | unsupportedFormat (fmt : String)
  | ioError
  | nameError
deriving DecidableEq, Repr

/-- Body of the `try` block of `export_off`: open the output path and write
every line, or raise an IO error when the write fails. -/
def export_off_try (writeOk : Bool) (m : MeshData) : Except PyErr (List String) :=
  if writeOk = false then Except.error PyErr.ioError
  else Except.ok (export_off_lines m)

/-- Embedding of `export_off` (lines 150-172): the whole body sits in a
`try/except` whose handler only prints, so the function always returns
normally — `some` lines when the file was written, `none` when the write
failed and the exception was swallowed. -/
def export_off (writeOk : Bool) (m : MeshData) : Except PyErr (Option (List String)) :=
  match export_off_try writeOk m with
  | Except.ok ls => Except.ok (some ls)
  | Except.error _ => Except.ok none

/-! The conversion orchestrator `convert_step` (lines 76-148). -/

/-- Oracle outcomes for the external kernel calls made by one `convert_step`
run: whether the input path exists, whether each FreeCAD operation succeeds,
and the mesh produced by tessellation (consumed by `export_off`). -/
structure KernelEnv where
  inputExists : Bool
  meshReadOk : Bool
  makeShapeOk : Bool
  shapeReadOk : Bool
  tessellateOk : Bool
  exportOk : Bool
  offWriteOk : Bool
  meshData : MeshData
deriving DecidableEq, Repr

/-- The mesh branch of `convert_step` (lines 101-108): `Mesh.read` then
`makeShapeFromMesh`, either of which may raise. -/
def meshLoad (env : KernelEnv) : Except PyErr Unit :=
  if env.meshReadOk = false then Except.error PyErr.kernelError
  else if env.makeShapeOk = false then Except.error PyErr.kernelError
  else Except.ok ()

/-- The native branch of `convert_step` (lines 109-114): `Part.Shape.read`. -/
def nativeLoad (env : KernelEnv) : Except PyErr Unit :=
  if env.shapeReadOk = false then Except.error PyErr.kernelError
  else Except.ok ()

/-- Loading the input inside `convert_step`, dispatched on the input
extension. -/
def loadInput (env : KernelEnv) (input_file : String) : Except PyErr Unit :=
  match classify_input input_file with
  | LoadBranch.mesh => meshLoad env
  | LoadBranch.native => nativeLoad env

/-- One export branch of `convert_step`: solid exports call a single kernel
writer; mesh-target exports tessellate first; `off` tessellates and then calls
`export_off`, which never raises. -/
def performExport (env : KernelEnv) (op : ExportOp) : Except PyErr Unit :=
  match op with
  | ExportOp.step => if env.exportOk = false then Except.error PyErr.kernelError else Except.ok ()
  | ExportOp.iges => if env.exportOk = false then Except.error PyErr.kernelError else Except.ok ()
  | ExportOp.brep => if env.exportOk = false then Except.error PyErr.kernelError else Except.ok ()
  | ExportOp.stl =>
      if env.tessellateOk = false then Except.error PyErr.kernelError
      else if env.exportOk = false then Except.error PyErr.kernelError
      else Except.ok ()
  | ExportOp.obj =>
      if env.tessellateOk = false then Except.error PyErr.kernelError
      else if env.exportOk = false then Except.error PyErr.kernelError
      else Except.ok ()
  | ExportOp.ply =>
      if env.tessellateOk = false then Except.error PyErr.kernelError
      else if env.exportOk = false then Except.error PyErr.kernelError
      else Except.ok ()
  | ExportOp.off =>
      if env.tessellateOk = false then Except.error PyErr.kernelError
      else
        match export_off env.offWriteOk env.meshData with
        | Except.ok _ => Except.ok ()
        | Except.error e => Except.error e

/-- The export step of `convert_step` (lines 116-137): the dispatch chain,
raising `ValueError` for an unsupported token. -/
def exportOutput (env : KernelEnv) (output_format : String) : Except PyErr Unit :=
  match dispatch output_format with
  | some op => performExport env op
  | none => Except.error (PyErr.unsupportedFormat output_format)

/-- Body of the `try` block of `convert_step`: existence check, load, export.
The document initialization cannot raise in this model; its effect on the
document state is tracked separately in `convert_step`. -/
def convert_step_try (env : KernelEnv) (input_file output_format : String) :
    Except PyErr Unit :=
  if env.inputExists = false then Except.error PyErr.fileNotFound
  else (loadInput env input_file).bind (fun _ => exportOutput env output_format)

/-- Result of a Python call: a normal return or a propagated exception. -/
inductive PyResult where
  | ret (b : Bool)
  | exn (e : PyErr)
deriving DecidableEq, Repr

/-- Document state after the `if not FreeCAD.ActiveDocument: newDocument`
initialization (line 93): open afterwards in every case. -/
def docAfterInit (doc0 : Bool) : Bool :=
  if doc0 = false then true else doc0

/-- Embedding of `convert_step` (lines 76-148) with the process-global
FreeCAD document state threaded explicitly.  The `try` body runs after the
existence check opened a document (the check precedes initialization, so a
missing input leaves the document state untouched); the `except` clause turns
any raised exception into `False`; the `finally` clause closes the active
document when one is open.  Returns the Python result and the final document
state. -/
def convert_step (env : KernelEnv) (input_file output_file output_format : String)
    (tolerance : ℚ) (doc0 : Bool) : PyResult × Bool :=
  let docAfterBody := if env.inputExists = false then doc0 else docAfterInit doc0
  let res := match convert_step_try env input_file output_format with
    | Except.ok _ => PyResult.ret true
    | Except.error _ => PyResult.ret false
  let docFinal := if docAfterBody = true then false else docAfterBody
  (res, docFinal)

/-- Default tessellation tolerance of `convert_step` (`0.1`). -/
def defaultTolerance : ℚ := 1 / 10

/-- An all-success kernel environment over a small triangle mesh. -/
def allOkKernel : KernelEnv :=
  { inputExists := true, meshReadOk := true, makeShapeOk := true,
    shapeReadOk := true, tessellateOk := true, exportOk := true,
    offWriteOk := true,
    meshData := { points := [⟨0, 0, 0⟩, ⟨1, 0, 0⟩, ⟨0, 1, 0⟩],
                  facets := [⟨[0, 1, 2]⟩] } }

example :
    (convert_step allOkKernel "part.step" "part.stl" "stl" defaultTolerance false).1
      = PyResult.ret true := by decide
example :
    (convert_step allOkKernel "part.step" "part.gltf" "gltf" defaultTolerance false).1
      = PyResult.ret false := by decide
example :
    (convert_step { allOkKernel with inputExists := false }
      "part.step" "part.stl" "stl" defaultTolerance true).2 = false := by decide

/-! The artifact publisher: `upload_to_s3` (lines 174-201) and
`generate_presigned_url` (lines 56-74). -/

/-- Oracle outcome of one `s3_client.upload_file` call: success, or one of
the exception classes the source catches. -/
inductive UploadOutcome where
  | success
  | fileNotFound
  | noCredentials
  | incompleteCredentials
  | otherError
deriving DecidableEq, Repr

/-- The object key `upload_to_s3` uses: `object_name` when given, otherwise
the `file_name` argument itself (line 183-184). -/
def upload_object_key (file_name : String) (object_name : Option String) : String :=
  match object_name with
  | none => file_name
  | some o => o

/-- Embedding of `upload_to_s3` (lines 174-201): every exception class raised
by the transfer is caught and turned into a `False` return, so the call always
returns normally (`Except.ok`).  The result carries the returned boolean and
the object key the upload used. -/
def upload_to_s3 (outcome : UploadOutcome) (file_name bucket_name : String)
    (object_name : Option String) : Except PyErr (Bool × String) :=
  let key := upload_object_key file_name object_name
  match outcome with
  | UploadOutcome.success => Except.ok (true, key)
  | UploadOutcome.fileNotFound => Except.ok (false, key)
  | UploadOutcome.noCredentials => Except.ok (false, key)
  | UploadOutcome.incompleteCredentials => Except.ok (false, key)
  | UploadOutcome.otherError => Except.ok (false, key)

/-- Embedding of `generate_presigned_url`: the oracle's result is the URL the
S3 client produced, with `none` for the error path (the `except` clause
returns `None`). -/
def generate_presigned_url (presignOutcome : Option String)
    (bucket_name object_name : String) (expiration : Nat) : Option String :=
  presignOutcome

/-! The request handler `convert` (lines 204-297). -/

/-- The JSON body of one `POST /convert` request; `none` marks an absent
field (`data.get` returning `None`). -/
structure ConvRequest where
  input_file : Option String
  output_format : Option String
  organization_id : Option String
  s3_bucket : Option String
deriving DecidableEq, Repr

/-- Python truthiness of an optional string: `None` and the empty string are
falsy. -/
def pyTruthy : Option String → Bool
  | none => false
  | some s => !(s == "")

/-- The status values written to the job record. -/
inductive JobStatus where
  | pending
  | processing
  | uploading
  | completed
  | failed
deriving DecidableEq, Repr

/-- The HTTP response of the handler: 200 with the output file name and the
optional download link, 400, or 500. -/
inductive HttpResponse where
  | ok (output_file : String) (s3_download_link : Option String)
  | badRequest (error : String)
  | serverError (error : String)
deriving DecidableEq, Repr

/-- Environment of one handler run: the kernel oracles, the initial FreeCAD
document state, the upload outcome, and the presign outcome. -/
structure HandlerEnv where
  kernel : KernelEnv
  doc0 : Bool
  uploadOutcome : UploadOutcome
  presignOutcome : Option String
deriving DecidableEq, Repr

/-- The error text `str(e)` of each embedded exception. -/
def errText : PyErr → String
  | PyErr.fileNotFound => "Input file not found"
  | PyErr.kernelError => "kernel error"
  | PyErr.unsupportedFormat fmt => "Unsupported output format: " ++ fmt
  | PyErr.ioError => "io error"
  | PyErr.nameError =>
      "cannot access local variable s3_download_link where it is not associated with a value"

/-- The final COMPLETED update and 200 response (lines 277-288).  The local
`s3_download_link` is modelled as `Option (Option String)`: the outer layer
records whether the variable is bound at all, the inner layer its Python value
(`None` or a URL).  Reading an unbound local raises `UnboundLocalError`. -/
def completedUpdate (linkVar : Option (Option String)) (writes : List JobStatus)
    (output_file : String) : Except PyErr HttpResponse × List JobStatus :=
  match linkVar with
  | none => (Except.error PyErr.nameError, writes)
  | some link =>
      (Except.ok (HttpResponse.ok output_file link), writes ++ [JobStatus.completed])

/-- The `try` body of the handler (lines 209-288): validation, ledger
creation, conversion, optional upload and presign, final COMPLETED update.
Returns the outcome of the body (a response, or a raised exception) together
with the sequence of status values written to the job record so far. -/
def convert_try (env : HandlerEnv) (req : ConvRequest) :
    Except PyErr HttpResponse × List JobStatus :=
  if !pyTruthy req.input_file || !pyTruthy req.output_format
      || !pyTruthy req.organization_id then
    (Except.ok (HttpResponse.badRequest
      "Missing required parameters: input_file, output_format, organization_id"), [])
  else
    let input_file := req.input_file.getD ""
    let output_format := req.output_format.getD ""
    let output_file := generate_output_file input_file output_format
    let writes0 := [JobStatus.pending, JobStatus.processing]
    match (convert_step env.kernel input_file output_file output_format
        defaultTolerance env.doc0).1 with
    | PyResult.exn e => (Except.error e, writes0)
    | PyResult.ret success =>
      if success = false then
        (Except.ok (HttpResponse.serverError "Conversion failed"),
          writes0 ++ [JobStatus.failed])
      else
        let writes1 := writes0 ++ [JobStatus.uploading]
        let s3_download_link : Option (Option String) := none
        if pyTruthy req.s3_bucket then
          match upload_to_s3 env.uploadOutcome output_file (req.s3_bucket.getD "") none with
          | Except.error e => (Except.error e, writes1)
          | Except.ok (upload_success, _) =>
            if upload_success = false then
              (Except.ok (HttpResponse.serverError "S3 upload failed"),
                writes1 ++ [JobStatus.failed])
            else
              let s3_object_name := basename output_file
              let s3_download_link : Option (Option String) :=
                some (generate_presigned_url env.presignOutcome
                  (req.s3_bucket.getD "") s3_object_name 3600)
              if !pyTruthy (s3_download_link.getD none) then
                (Except.ok (HttpResponse.serverError
                  "Failed to generate S3 download link"),
                  writes1 ++ [JobStatus.failed])
              else
                completedUpdate s3_download_link writes1 output_file
        else
          completedUpdate s3_download_link writes1 output_file

/-- Embedding of the `/convert` handler (lines 204-297): run the body; an
exception escaping it is caught by the outer `except`, which marks the job
FAILED when a record was created (`'result' in locals()`) and answers 500
with the error text. -/
def convert (env : HandlerEnv) (req : ConvRequest) : HttpResponse × List JobStatus :=
  match convert_try env req with
  | (Except.ok resp, writes) => (resp, writes)
  | (Except.error e, writes) =>
      match writes with
      | [] => (HttpResponse.serverError (errText e), [])
      | _ => (HttpResponse.serverError (errText e), writes ++ [JobStatus.failed])

/-- A request with every field present and a bucket. -/
def reqWithBucket : ConvRequest :=
  { input_file := some "part.step", output_format := some "stl",
    organization_id := some "org1", s3_bucket := some "bucket1" }

/-- The scenario request of the spec: `part.step` to `stl`, no bucket. -/
def reqNoBucket : ConvRequest :=
  { input_file := some "part.step", output_format := some "stl",
    organization_id := some "org1", s3_bucket := none }

/-- A handler environment where every external call succeeds. -/
def allOkEnv : HandlerEnv :=
  { kernel := allOkKernel, doc0 := false,
    uploadOutcome := UploadOutcome.success,
    presignOutcome := some "https://s3.example/part.stl" }

example :
    convert allOkEnv reqWithBucket
      = (HttpResponse.ok "part.stl" (some "https://s3.example/part.stl"),
         [JobStatus.pending, JobStatus.processing, JobStatus.uploading,
          JobStatus.completed]) := by decide

example :
    convert allOkEnv reqNoBucket
      = (HttpResponse.serverError (errText PyErr.nameError),
         [JobStatus.pending, JobStatus.processing, JobStatus.uploading,
          JobStatus.failed]) := by decide

/-! Helper lemmas shared by the claim theorems. -/

/-- An unsupported (lowercased) token falls through every branch of the
dispatch chain. -/
lemma dispatchCore_eq_none (l : String) (h : l ∉ supportedFormats) :
    dispatchCore l = none := by
  simp only [supportedFormats, List.mem_cons, List.mem_singleton, not_or,
    List.not_mem_nil] at h
  obtain ⟨h1, h2, h3, h4, h5, h6, h7, h8, h9, h10⟩ := h
  simp [dispatchCore, h1, h2, h3, h4, h5, h6, h7, h8, h9, h10]

/-- An extension outside the mesh tuple takes the native branch. -/
lemma classifyCore_eq_native (l : String) (h : l ∉ meshExtensions) :
    classifyCore l = LoadBranch.native := by
  simp only [meshExtensions, List.mem_cons, List.mem_singleton, not_or,
    List.not_mem_nil] at h
  obtain ⟨h1, h2, h3, h4⟩ := h
  simp [classifyCore, h1, h2, h3, h4]

/-- If the whole `try` body of `convert_step` succeeded, the dispatch chain
matched some export operation. -/
lemma convert_step_try_ok_dispatch (env : KernelEnv) (input_file output_format : String)
    (h : convert_step_try env input_file output_format = Except.ok ()) :
    (dispatch output_format).isSome = true := by
  unfold convert_step_try at h
  by_cases he : env.inputExists = false
  · simp [he] at h
  · simp only [he, if_false, Bool.false_eq_true] at h
    cases hl : loadInput env input_file with
    | error e => rw [hl] at h; simp [Except.bind] at h
    | ok u =>
      rw [hl] at h
      simp only [Except.bind] at h
      unfold exportOutput at h
      cases hd : dispatch output_format with
      | none => rw [hd] at h; simp at h
      | some op => simp

/-- The first component of `convert_step` is the boolean image of the `try`
body. -/
lemma convert_step_fst (env : KernelEnv) (input_file output_file output_format : String)
    (tol : ℚ) (doc0 : Bool) :
    (convert_step env input_file output_file output_format tol doc0).1
      = (match convert_step_try env input_file output_format with
         | Except.ok _ => PyResult.ret true
         | Except.error _ => PyResult.ret false) := rfl

/-! Claim theorems. -/

/-- C4: after every call to `convert_step`, whatever it returns, the FreeCAD
document state is closed: the `finally` clause closes the active document on
every exit path. -/
theorem convert_step_closes_document (env : KernelEnv)
    (input_file output_file output_format : String) (tol : ℚ) (doc0 : Bool) :
    (convert_step env input_file output_file output_format tol doc0).2 = false := by
  have h : ∀ b : Bool, (if b = true then false else b) = false := by decide
  exact h _

/-- C3: `convert_step` never lets an exception propagate: its result is
always a normal boolean return, and whenever the `try` body (existence check,
load, reconstruction, export) raises, the returned boolean is `false`. -/
theorem convert_step_never_raises (env : KernelEnv)
    (input_file output_file output_format : String) (tol : ℚ) (doc0 : Bool) :
    (∃ b, (convert_step env input_file output_file output_format tol doc0).1
        = PyResult.ret b) ∧
    (∀ e, convert_step_try env input_file output_format = Except.error e →
      (convert_step env input_file output_file output_format tol doc0).1
        = PyResult.ret false) := by
  constructor
  · rw [convert_step_fst]
    cases convert_step_try env input_file output_format with
    | ok u => exact ⟨true, rfl⟩
    | error e => exact ⟨false, rfl⟩
  · intro e he
    rw [convert_step_fst, he]

/-- Witness for C3 at a concrete failing environment: the missing-input error
is swallowed and `convert_step` returns `false`. -/
theorem convert_step_never_raises_witness :
    (∃ b, (convert_step { allOkKernel with inputExists := false }
        "part.step" "part.stl" "stl" defaultTolerance false).1 = PyResult.ret b) ∧
    (convert_step { allOkKernel with inputExists := false }
        "part.step" "part.stl" "stl" defaultTolerance false).1 = PyResult.ret false :=
  ⟨(convert_step_never_raises { allOkKernel with inputExists := false }
      "part.step" "part.stl" "stl" defaultTolerance false).1,
   (convert_step_never_raises { allOkKernel with inputExists := false }
      "part.step" "part.stl" "stl" defaultTolerance false).2
     PyErr.fileNotFound rfl⟩

/-- C2: the lines written by the `.off` exporter: line 0 is the literal
`OFF`; line 1 is the vertex count, the face count and a zero placeholder;
then one line per vertex with its three space-separated coordinates; then one
line per face with the face's vertex count followed by that many zero-based
vertex indices; and a successful `export_off` writes exactly these lines. -/
theorem export_off_file_format (m : MeshData) :
    (export_off_lines m).length = 2 + m.points.length + m.facets.length ∧
    (export_off_lines m)[0]? = some "OFF" ∧
    (export_off_lines m)[1]?
      = some (toString m.points.length ++ " " ++ toString m.facets.length ++ " 0") ∧
    (∀ i, i < m.points.length →
      (export_off_lines m)[2 + i]? = (m.points[i]?).map vertexLine) ∧
    (∀ j, j < m.facets.length →
      (export_off_lines m)[2 + m.points.length + j]? = (m.facets[j]?).map faceLine) ∧
    export_off true m = Except.ok (some (export_off_lines m)) := by
  refine ⟨?_, ?_, ?_, ?_, ?_, rfl⟩
  · simp only [export_off_lines, List.length_append, List.length_cons,
      List.length_map, List.length_nil]
  · simp [export_off_lines]
  · simp [export_off_lines]
  · intro i hi
    rw [show (2 : Nat) + i = i + 1 + 1 by omega]
    simp only [export_off_lines, List.cons_append, List.nil_append,
      List.getElem?_cons_succ]
    rw [List.getElem?_append_left (by simpa using hi), List.getElem?_map]
  · intro j hj
    rw [show 2 + m.points.length + j = m.points.length + j + 1 + 1 by omega]
    simp only [export_off_lines, List.cons_append, List.nil_append,
      List.getElem?_cons_succ]
    rw [List.getElem?_append_right (by simp), List.getElem?_map]
    simp

/-- Witness for C2 at the triangle mesh: the first vertex line and the first
face line sit at the indices the theorem names. -/
theorem export_off_file_format_witness :
    (export_off_lines allOkKernel.meshData)[2 + 0]?
      = ((allOkKernel.meshData).points[0]?).map vertexLine ∧
    (export_off_lines allOkKernel.meshData)[2 + (allOkKernel.meshData).points.length + 0]?
      = ((allOkKernel.meshData).facets[0]?).map faceLine :=
  ⟨(export_off_file_format allOkKernel.meshData).2.2.2.1 0 (by decide),
   (export_off_file_format allOkKernel.meshData).2.2.2.2.1 0 (by decide)⟩

/-- C5: a token whose lowercasing is one of the ten supported format strings
resolves to exactly one export operation; every other token resolves to none,
`convert_step` then returns `false`, and when the pipeline reaches the export
step the raised error is the unsupported-format `ValueError`. -/
theorem dispatch_total_unsupported_fails (fmt : String) :
    (pyLower fmt ∈ supportedFormats ↔ (dispatch fmt).isSome = true) ∧
    (pyLower fmt ∉ supportedFormats → dispatch fmt = none) ∧
    (pyLower fmt ∉ supportedFormats →
      ∀ (env : KernelEnv) (input_file output_file : String) (tol : ℚ) (doc0 : Bool),
        (convert_step env input_file output_file fmt tol doc0).1 = PyResult.ret false) ∧
    (pyLower fmt ∉ supportedFormats →
      ∀ (env : KernelEnv) (input_file : String),
        env.inputExists = true → loadInput env input_file = Except.ok () →
          convert_step_try env input_file fmt
            = Except.error (PyErr.unsupportedFormat fmt)) := by
  have hnone : pyLower fmt ∉ supportedFormats → dispatch fmt = none := fun h =>
    dispatchCore_eq_none (pyLower fmt) h
  refine ⟨⟨?_, ?_⟩, hnone, ?_, ?_⟩
  · intro h
    simp only [supportedFormats, List.mem_cons, List.mem_singleton,
      List.not_mem_nil, or_false] at h
    unfold dispatch dispatchCore
    rcases h with h | h | h | h | h | h | h | h | h | h <;> rw [h] <;> decide
  · intro h
    by_contra hmem
    rw [hnone hmem] at h
    simp at h
  · intro hmem env input_file output_file tol doc0
    rw [convert_step_fst]
    cases htry : convert_step_try env input_file fmt with
    | error e => rfl
    | ok u =>
      cases u
      have hs := convert_step_try_ok_dispatch env input_file fmt htry
      rw [hnone hmem] at hs
      simp at hs
  · intro hmem env input_file hex hload
    unfold convert_step_try
    rw [hex, hload]
    simp only [Except.bind]
    unfold exportOutput
    rw [hnone hmem]
    rfl

/-- Witness for C5: `STL` is accepted; `gltf` is rejected, the conversion
returns `false`, and the error at the export step is the unsupported-format
one. -/
theorem dispatch_total_unsupported_fails_witness :
    (dispatch "STL").isSome = true ∧
    dispatch "gltf" = none ∧
    (convert_step allOkKernel "part.step" "part.gltf" "gltf"
      defaultTolerance false).1 = PyResult.ret false ∧
    convert_step_try allOkKernel "part.step" "gltf"
      = Except.error (PyErr.unsupportedFormat "gltf") :=
  ⟨(dispatch_total_unsupported_fails "STL").1.mp (by decide),
   (dispatch_total_unsupported_fails "gltf").2.1 (by decide),
   (dispatch_total_unsupported_fails "gltf").2.2.1 (by decide)
     allOkKernel "part.step" "part.gltf" defaultTolerance false,
   (dispatch_total_unsupported_fails "gltf").2.2.2 (by decide)
     allOkKernel "part.step" rfl rfl⟩

/-- C6: input classification is total over extensions: the four mesh
extensions (after lowercasing) take the mesh-reconstruction branch, every
other extension takes the direct native-load branch, and each input takes
exactly one of the two. -/
theorem classify_input_total (p : String) (env : KernelEnv) :
    (input_extension p ∈ meshExtensions →
      classify_input p = LoadBranch.mesh ∧ loadInput env p = meshLoad env) ∧
    (input_extension p ∉ meshExtensions →
      classify_input p = LoadBranch.native ∧ loadInput env p = nativeLoad env) ∧
    (classify_input p = LoadBranch.mesh ↔ ¬ classify_input p = LoadBranch.native) := by
  have hm : input_extension p ∈ meshExtensions → classify_input p = LoadBranch.mesh := by
    intro h
    simp only [meshExtensions, List.mem_cons, List.mem_singleton,
      List.not_mem_nil, or_false] at h
    unfold classify_input classifyCore
    rcases h with h | h | h | h <;> rw [h] <;> decide
  have hn : input_extension p ∉ meshExtensions → classify_input p = LoadBranch.native :=
    fun h => classifyCore_eq_native (input_extension p) h
  refine ⟨fun h => ⟨hm h, ?_⟩, fun h => ⟨hn h, ?_⟩, ?_⟩
  · unfold loadInput
    rw [hm h]
  · unfold loadInput
    rw [hn h]
  · cases hc : classify_input p <;> simp [hc]

/-- Witness for C6: `.STL` (uppercased on disk) goes to the mesh branch,
`.step` to the native branch. -/
theorem classify_input_total_witness :
    (classify_input "a/part.STL" = LoadBranch.mesh
      ∧ loadInput allOkKernel "a/part.STL" = meshLoad allOkKernel) ∧
    (classify_input "part.step" = LoadBranch.native
      ∧ loadInput allOkKernel "part.step" = nativeLoad allOkKernel) :=
  ⟨(classify_input_total "a/part.STL" allOkKernel).1 (by decide),
   (classify_input_total "part.step" allOkKernel).2.1 (by decide)⟩

/-- C7: for a request with all required fields, a bucket, and success of the
conversion, the upload and the presign, the job record receives exactly the
status sequence PENDING, PROCESSING, UPLOADING, COMPLETED, and the response
is the 200 one carrying the derived output file name and the presigned
link. -/
theorem bucket_success_status_sequence (env : HandlerEnv) (req : ConvRequest)
    (h1 : pyTruthy req.input_file = true)
    (h2 : pyTruthy req.output_format = true)
    (h3 : pyTruthy req.organization_id = true)
    (h4 : pyTruthy req.s3_bucket = true)
    (h5 : (convert_step env.kernel (req.input_file.getD "")
        (generate_output_file (req.input_file.getD "") (req.output_format.getD ""))
        (req.output_format.getD "") defaultTolerance env.doc0).1 = PyResult.ret true)
    (h6 : env.uploadOutcome = UploadOutcome.success)
    (h7 : pyTruthy env.presignOutcome = true) :
    (convert env req).2
      = [JobStatus.pending, JobStatus.processing, JobStatus.uploading,
         JobStatus.completed] ∧
    (convert env req).1
      = HttpResponse.ok
          (generate_output_file (req.input_file.getD "") (req.output_format.getD ""))
          env.presignOutcome := by
  have hbody : convert_try env req
      = (Except.ok (HttpResponse.ok
          (generate_output_file (req.input_file.getD "") (req.output_format.getD ""))
          env.presignOutcome),
         [JobStatus.pending, JobStatus.processing, JobStatus.uploading,
          JobStatus.completed]) := by
    simp [convert_try, h1, h2, h3, h4, h5, h6, h7, upload_to_s3,
      upload_object_key, generate_presigned_url, completedUpdate]
  have hres : convert env req
      = (HttpResponse.ok
          (generate_output_file (req.input_file.getD "") (req.output_format.getD ""))
          env.presignOutcome,
         [JobStatus.pending, JobStatus.processing, JobStatus.uploading,
          JobStatus.completed]) := by
    unfold convert
    rw [hbody]
  exact ⟨by rw [hres], by rw [hres]⟩

/-- Witness for C7 at the all-success environment with a bucket. -/
theorem bucket_success_status_sequence_witness :
    (convert allOkEnv reqWithBucket).2
      = [JobStatus.pending, JobStatus.processing, JobStatus.uploading,
         JobStatus.completed] ∧
    (convert allOkEnv reqWithBucket).1
      = HttpResponse.ok
          (generate_output_file (reqWithBucket.input_file.getD "")
            (reqWithBucket.output_format.getD ""))
          allOkEnv.presignOutcome :=
  bucket_success_status_sequence allOkEnv reqWithBucket
    (by decide) (by decide) (by decide) (by decide) (by decide) rfl (by decide)

/-- C9: a request missing a required field is answered 400 with the error
message and no write to the job collection happens. -/
theorem missing_params_no_ledger_write (env : HandlerEnv) (req : ConvRequest)
    (h : req.input_file = none ∨ req.output_format = none
      ∨ req.organization_id = none) :
    convert env req
      = (HttpResponse.badRequest
          "Missing required parameters: input_file, output_format, organization_id",
         []) := by
  have hcond : (!pyTruthy req.input_file || !pyTruthy req.output_format
      || !pyTruthy req.organization_id) = true := by
    rcases h with h | h | h <;> simp [h, pyTruthy]
  unfold convert convert_try
  rw [hcond]
  rfl

/-- Witness for C9: missing `output_format` yields 400 and no ledger entry. -/
theorem missing_params_no_ledger_write_witness :
    convert allOkEnv
      { input_file := some "part.step", output_format := none,
        organization_id := some "org1", s3_bucket := none }
      = (HttpResponse.badRequest
          "Missing required parameters: input_file, output_format, organization_id",
         []) :=
  missing_params_no_ledger_write allOkEnv
    { input_file := some "part.step", output_format := none,
      organization_id := some "org1", s3_bucket := none }
    (Or.inr (Or.inl rfl))

/-- C1 (code bug): on the spec's no-bucket scenario (`part.step` to `stl`,
`org1`), the conversion itself succeeds and the derived output name is
`part.stl`, but the final COMPLETED update reads the local
`s3_download_link`, which was never assigned on this path; the resulting
`UnboundLocalError` is caught by the outer handler, so the job is marked
FAILED and the response is 500 — not the 200/COMPLETED/null-link outcome the
claim states. -/
theorem no_bucket_success_marks_failed :
    convert allOkEnv reqNoBucket
      = (HttpResponse.serverError (errText PyErr.nameError),
         [JobStatus.pending, JobStatus.processing, JobStatus.uploading,
          JobStatus.failed]) ∧
    generate_output_file "part.step" "stl" = "part.stl" ∧
    (convert_step allOkKernel "part.step" "part.stl" "stl"
      defaultTolerance false).1 = PyResult.ret true := by decide

/-- C8 counterexample: with no explicit object key, `upload_to_s3` uses the
`file_name` argument itself as the S3 object key; for a path with a
directory component that key is not the base name. -/
theorem upload_key_keeps_directories :
    upload_to_s3 UploadOutcome.success "subdir/part.stl" "bucket1" none
      = Except.ok (true, "subdir/part.stl") ∧
    basename "subdir/part.stl" = "part.stl" ∧
    ("subdir/part.stl" : String) ≠ "part.stl" := by
  refine ⟨rfl, by decide, by decide⟩

/-- C8 (amended): with no explicit object key, `upload_to_s3` uses the given
file path itself (not its base name) as the S3 object key, and it reports
failure by returning `false`, never raising, on a missing file, missing or
incomplete credentials, or any transport error. -/
theorem upload_to_s3_default_key_and_no_raise (outcome : UploadOutcome)
    (file_name bucket_name : String) :
    (∃ r, upload_to_s3 outcome file_name bucket_name none = Except.ok r) ∧
    upload_object_key file_name none = file_name ∧
    (outcome = UploadOutcome.success →
      upload_to_s3 outcome file_name bucket_name none = Except.ok (true, file_name)) ∧
    (outcome ≠ UploadOutcome.success →
      upload_to_s3 outcome file_name bucket_name none
        = Except.ok (false, file_name)) := by
  cases outcome <;> simp [upload_to_s3, upload_object_key]

/-- Witness for C8 (amended) at a successful and a failing upload. -/
theorem upload_to_s3_default_key_and_no_raise_witness :
    upload_to_s3 UploadOutcome.success "f.stl" "b" none = Except.ok (true, "f.stl") ∧
    upload_to_s3 UploadOutcome.noCredentials "f.stl" "b" none
      = Except.ok (false, "f.stl") :=
  ⟨(upload_to_s3_default_key_and_no_raise UploadOutcome.success "f.stl" "b").2.2.1 rfl,
   (upload_to_s3_default_key_and_no_raise UploadOutcome.noCredentials
      "f.stl" "b").2.2.2 (by decide)⟩

/-- A handler environment where the `.off` file write fails and everything
else succeeds. -/
def offFailEnv : HandlerEnv :=
  { kernel := { allOkKernel with offWriteOk := false }, doc0 := false,
    uploadOutcome := UploadOutcome.success, presignOutcome := some "u" }

/-- An `off`-format request without a bucket. -/
def reqOffNoBucket : ConvRequest :=
  { input_file := some "part.step", output_format := some "off",
    organization_id := some "org1", s3_bucket := none }

/-- C10 counterexample: when the `.off` write fails, `export_off` swallows
the error and `convert_step` returns `true`; but at this concrete no-bucket
request the handler then answers 500 (via the unbound `s3_download_link`)
with the job marked FAILED, so it does not report success as the claim
states. -/
theorem off_write_failure_no_success_response :
    export_off false allOkKernel.meshData = Except.ok none ∧
    (convert_step { allOkKernel with offWriteOk := false }
      "part.step" "part.off" "off" defaultTolerance false).1 = PyResult.ret true ∧
    convert offFailEnv reqOffNoBucket
      = (HttpResponse.serverError (errText PyErr.nameError),
         [JobStatus.pending, JobStatus.processing, JobStatus.uploading,
          JobStatus.failed]) :=
  ⟨rfl, by decide, by decide⟩

/-- C10 (amended): `export_off` catches every exception internally and
returns normally, so a conversion whose output format is `off` returns `true`
even when writing the `.off` file fails; the handler, however, does not then
report success: on the bucketless path the COMPLETED update raises the
unbound-variable error and the request ends 500 with the job FAILED. -/
theorem export_off_swallows_errors (wOk : Bool) (m : MeshData) :
    (∃ r, export_off wOk m = Except.ok r) ∧
    export_off false m = Except.ok none ∧
    (∀ (env : KernelEnv) (input_file output_file : String) (tol : ℚ) (doc0 : Bool),
      env.inputExists = true → loadInput env input_file = Except.ok () →
      env.tessellateOk = true →
      (convert_step env input_file output_file "off" tol doc0).1
        = PyResult.ret true) ∧
    (∀ (henv : HandlerEnv) (req : ConvRequest),
      pyTruthy req.input_file = true → pyTruthy req.output_format = true →
      pyTruthy req.organization_id = true → req.s3_bucket = none →
      (convert_step henv.kernel (req.input_file.getD "")
        (generate_output_file (req.input_file.getD "") (req.output_format.getD ""))
        (req.output_format.getD "") defaultTolerance henv.doc0).1
          = PyResult.ret true →
      convert henv req
        = (HttpResponse.serverError (errText PyErr.nameError),
           [JobStatus.pending, JobStatus.processing, JobStatus.uploading,
            JobStatus.failed])) := by
  refine ⟨?_, rfl, ?_, ?_⟩
  · cases wOk
    · exact ⟨none, rfl⟩
    · exact ⟨some (export_off_lines m), rfl⟩
  · intro env input_file output_file tol doc0 h1 h2 h3
    rw [convert_step_fst]
    have htry : convert_step_try env input_file "off" = Except.ok () := by
      unfold convert_step_try
      rw [h1, h2]
      simp only [Except.bind]
      unfold exportOutput
      have hd : dispatch "off" = some ExportOp.off := rfl
      rw [hd]
      unfold performExport
      rw [h3]
      cases hw : env.offWriteOk <;> rfl
    rw [htry]
  · intro henv req h1 h2 h3 h4 h5
    have hbody : convert_try henv req
        = (Except.error PyErr.nameError,
           [JobStatus.pending, JobStatus.processing, JobStatus.uploading]) := by
      have hp : pyTruthy none = false := rfl
      simp [convert_try, h1, h2, h3, h4, h5, hp, completedUpdate]
    unfold convert
    rw [hbody]
    rfl

/-- Witness for C10 (amended) at the concrete off-write-failure scenario. -/
theorem export_off_swallows_errors_witness :
    (∃ r, export_off false allOkKernel.meshData = Except.ok r) ∧
    (convert_step { allOkKernel with offWriteOk := false }
      "part.step" "part.off" "off" defaultTolerance false).1 = PyResult.ret true ∧
    convert offFailEnv reqOffNoBucket
      = (HttpResponse.serverError (errText PyErr.nameError),
         [JobStatus.pending, JobStatus.processing, JobStatus.uploading,
          JobStatus.failed]) :=
  ⟨(export_off_swallows_errors false allOkKernel.meshData).1,
   (export_off_swallows_errors false allOkKernel.meshData).2.2.1
     { allOkKernel with offWriteOk := false } "part.step" "part.off"
     defaultTolerance false rfl rfl rfl,
   (export_off_swallows_errors false allOkKernel.meshData).2.2.2
     offFailEnv reqOffNoBucket (by decide) (by decide) (by decide) rfl (by decide)⟩

end FileConvertor
